import Mathlib

/-!
Verification of the datalab-to/sdk batch-processing and polling layer.

Shallow embedding of `src/datalab_sdk/client.py` (the `_poll_result` loops
of `AsyncDatalabClient` and `DatalabClient`, `_prepare_file_data`, and the
submit-then-poll skeleton of `convert` / `ocr`) and of
`src/datalab_sdk/collections.py` (`Collection.from_local_directory`,
`Collection._process_all` with its inner `process_single_source`).

Remote responses are modelled as oracles: a poll sequence is a function
`Nat → PollResponse` giving the body of the i-th status check, and the
outcome of one `client.convert` / `client.ocr` call inside a batch is a
function `String → Except String MethodResult` (an `Except.error e` models
a raised exception whose `str()` is `e`, exactly what the `except` branch
of `process_single_source` observes).
-/

namespace DatalabSDK

/-- One status-check response body, as read by `_poll_result` through
`data.get("status")`, `data.get("success", True)` and
`data.get("error", "Unknown error")`: each field may be absent. -/
structure PollResponse where
  status : Option String
  success : Option Bool
  error : Option String
deriving Repr, DecidableEq

/-- Result of a `_poll_result` run, with the number of status requests made:
the returned payload, a raised `DatalabAPIError` message, or a raised
`DatalabTimeoutError` message. -/
inductive PollOutcome where
  | complete (data : PollResponse) (checks : Nat)
  | apiError (msg : String) (checks : Nat)
  | timeoutError (msg : String) (checks : Nat)
deriving Repr, DecidableEq

/-- A response on which `_poll_result` keeps polling: not `complete`, and not
the failure exit `not data.get("success", True) and not data.get("status") == "processing"`. -/
def keepPolling (d : PollResponse) : Prop :=
  d.status ≠ some "complete" ∧ (d.success.getD true = true ∨ d.status = some "processing")

instance (d : PollResponse) : Decidable (keepPolling d) := by
  unfold keepPolling; infer_instance

namespace AsyncDatalabClient

/-- Body of `AsyncDatalabClient._poll_result` (client.py lines 159-178):
the `for i in range(max_polls)` loop, carried out with `i` the number of
checks already made and the remaining iterations as fuel.
`check i` is the body of the i-th `GET` on the check URL. -/
def pollResultGo (check : Nat → PollResponse) (maxPolls pollInterval : Nat) :
    Nat → Nat → PollOutcome
  | i, 0 =>
      PollOutcome.timeoutError
        ("Polling timed out after " ++ toString (maxPolls * pollInterval) ++ " seconds") i
  | i, fuel + 1 =>
      let data := check i
      if data.status = some "complete" then
        PollOutcome.complete data (i + 1)
      else if data.success.getD true = false ∧ data.status ≠ some "processing" then
        PollOutcome.apiError ("Processing failed: " ++ data.error.getD "Unknown error") (i + 1)
      else
        pollResultGo check maxPolls pollInterval (i + 1) fuel

/-- Model of `AsyncDatalabClient._poll_result(check_url, max_polls, poll_interval)`,
with the sequence of check responses abstracted as `check`. -/
def pollResult (check : Nat → PollResponse) (maxPolls pollInterval : Nat) : PollOutcome :=
  pollResultGo check maxPolls pollInterval 0 maxPolls

end AsyncDatalabClient

namespace DatalabClient

/-- Body of the synchronous `DatalabClient._poll_result` (client.py lines
320-339); textually the same loop as the asynchronous one, with
`time.sleep` in place of `asyncio.sleep`. -/
def pollResultGo (check : Nat → PollResponse) (maxPolls pollInterval : Nat) :
    Nat → Nat → PollOutcome
  | i, 0 =>
      PollOutcome.timeoutError
        ("Polling timed out after " ++ toString (maxPolls * pollInterval) ++ " seconds") i
  | i, fuel + 1 =>
      let data := check i
      if data.status = some "complete" then
        PollOutcome.complete data (i + 1)
      else if data.success.getD true = false ∧ data.status ≠ some "processing" then
        PollOutcome.apiError ("Processing failed: " ++ data.error.getD "Unknown error") (i + 1)
      else
        pollResultGo check maxPolls pollInterval (i + 1) fuel

/-- Model of `DatalabClient._poll_result`. -/
def pollResult (check : Nat → PollResponse) (maxPolls pollInterval : Nat) : PollOutcome :=
  pollResultGo check maxPolls pollInterval 0 maxPolls

end DatalabClient

/-! Path helpers modelling the `pathlib` operations the SDK uses:
`Path(p).name` (last path component), `Path(p).stem` and `Path(p).suffix`
(split at the last dot of the name, provided it is neither the first nor the
last character), and `urlparse(u).path`. -/

/-- Split a character list at `/` (structurally recursive so that it
evaluates inside the kernel). -/
def splitOnSlash : List Char → List (List Char)
  | [] => [[]]
  | c :: rest =>
      match splitOnSlash rest with
      | [] => [[c]]
      | h :: t => if c = '/' then [] :: h :: t else (c :: h) :: t

/-- Python `Path(p).name`: the last slash-separated component. -/
def lastComponent (p : String) : String :=
  ((splitOnSlash p.toList).getLastD []).asString

/-- Python `str.startswith` on the ASCII strings the SDK compares
(structurally recursive). -/
def startsWithChars : List Char → List Char → Bool
  | _, [] => true
  | [], _ :: _ => false
  | c :: cs, p :: ps => c = p && startsWithChars cs ps

/-- Python `s.startswith(pre)`. -/
def strStartsWith (s pre : String) : Bool :=
  startsWithChars s.toList pre.toList

/-- ASCII lower-casing of one character, as Python `str.lower` acts on the
ASCII extension strings the SDK filters by. -/
def lowerChar (c : Char) : Char :=
  if 65 ≤ c.toNat ∧ c.toNat ≤ 90 then Char.ofNat (c.toNat + 32) else c

/-- Python `s.lower()` on ASCII strings. -/
def lowerString (s : String) : String :=
  (s.toList.map lowerChar).asString

/-- Index of the last occurrence of a dot in a character list (Python
`name.rfind(".")` restricted to a found result). -/
def lastDotPos : List Char → Option Nat
  | [] => none
  | c :: rest =>
      match lastDotPos rest with
      | some i => some (i + 1)
      | none => if c = '.' then some 0 else none

/-- Python `Path(p).stem`: the name without its last suffix, where a dot counts as a
suffix separator only strictly inside the name. -/
def pathStem (p : String) : String :=
  let name := lastComponent p
  match lastDotPos name.toList with
  | some i => if 0 < i ∧ i < name.length - 1 then (name.toList.take i).asString else name
  | none => name

/-- Python `Path(p).suffix`: the last extension of the name, dot included, or empty. -/
def pathSuffix (p : String) : String :=
  let name := lastComponent p
  match lastDotPos name.toList with
  | some i => if 0 < i ∧ i < name.length - 1 then (name.toList.drop i).asString else ""
  | none => ""

/-- Python `urlparse(u).path`: after a `scheme://` the netloc runs to the first `/`,
and the path is the rest up to any query or fragment. -/
def uriPath (u : String) : String :=
  match u.splitOn "://" with
  | [_, rest] =>
      let rest := (rest.splitOn "?").headD rest
      let rest := (rest.splitOn "#").headD rest
      (rest.toList.dropWhile (fun c => c ≠ '/')).asString
  | _ => ((((u.splitOn "?").headD u).splitOn "#").headD u)

/-! Model of `src/datalab_sdk/collections.py`. -/

/-- The dictionary built by `process_single_source` for one source
(collections.py lines 232-249). -/
structure ItemRecord where
  source : String
  output_path : Option String
  success : Bool
  error : Option String
  page_count : Option Nat
  status : String
deriving Repr, DecidableEq

/-- One entry of `CollectionResult.errors`: `{"source": ..., "error": ...}`. -/
structure ErrorRecord where
  source : String
  error : Option String
deriving Repr, DecidableEq

/-- Model of `CollectionResult` (collections.py lines 12-20). -/
structure CollectionResult where
  collection_name : String
  total_files : Nat
  successful : Nat
  failed : Nat
  results : List ItemRecord
  errors : List ErrorRecord
deriving Repr, DecidableEq

/-- The fields of the object returned by `client.convert` / `client.ocr`
that `process_single_source` reads back into its record. -/
structure MethodResult where
  success : Bool
  error : Option String
  page_count : Option Nat
  status : String
deriving Repr, DecidableEq

/-- The `method` argument of `Collection._process_all`. -/
inductive Method where
  | convert
  | ocr
deriving Repr, DecidableEq

/-- Model of `Collection` (collections.py lines 23-27). -/
structure Collection where
  name : String
  sources : List String
deriving Repr, DecidableEq

/-- The check `source.startswith(("http://", "https://", "s3://"))`. -/
def isRemoteSource (source : String) : Bool :=
  strStartsWith source "http://" || strStartsWith source "https://"
    || strStartsWith source "s3://"

/-- Extension normalisation shared by `from_local_directory` and
`from_s3_prefix`: `ext if ext.startswith(".") else "." + ext`. -/
def normalizeExtensions (extensions : List String) : List String :=
  extensions.map (fun ext => if strStartsWith ext "." then ext else "." ++ ext)

/-- Model of `Collection.from_local_directory(name, directory, extensions)`
(collections.py lines 29-54) on an existing directory, with the recursive
traversal `directory.rglob("*")` abstracted as the list `files` of the
regular files below the directory, in traversal order.  The `extensions is
None` default (the supported-extensions table, from a module not under
`src/`) is applied by the caller, as in the source.  Kept files are those
with `file_path.suffix.lower() in extensions` after normalisation. -/
def fromLocalDirectory (name : String) (files : List String)
    (extensions : List String) : Collection :=
  let exts := normalizeExtensions extensions
  { name := name
    sources := files.filter (fun f => lowerString (pathSuffix f) ∈ exts) }

/-- The body of `process_single_source(source)` inside
`Collection._process_all` (collections.py lines 192-249).  `client` gives
the outcome of the awaited `client.convert` / `client.ocr` call on this
source: `Except.ok r` is a returned result object, `Except.error e` a
raised exception with message `e`.  The `try` block also raises
`ValueError("OCR method only supports local files, not URLs")` before any
client call when `method = ocr` and the source is a URL; every raised
exception is caught by the `except` branch and becomes a failed record. -/
def processSingleSource (collectionName : String) (method : Method)
    (client : String → Except String MethodResult)
    (outputDir : Option String) (source : String) : ItemRecord :=
  let sourceName :=
    if isRemoteSource source then
      let s := pathStem (uriPath source)
      if s = "" then "output" else s
    else
      pathStem source
  let saveOutput := outputDir.map
    (fun d => d ++ "/" ++ collectionName ++ "/" ++ sourceName ++ "/" ++ sourceName)
  let attempt : Except String MethodResult :=
    if method = Method.ocr ∧ isRemoteSource source then
      Except.error "OCR method only supports local files, not URLs"
    else
      client source
  match attempt with
  | Except.ok result =>
      { source := source
        output_path := saveOutput
        success := result.success
        error := result.error
        page_count := result.page_count
        status := result.status }
  | Except.error e =>
      { source := source
        output_path := none
        success := false
        error := some e
        page_count := none
        status := "failed" }

/-- Aggregation tail of `Collection._process_all` (collections.py lines
251-266): `asyncio.gather(*tasks)` returns the records in the order of
`self.sources` (gather preserves the order of its argument sequence), then
the summary counts successes and failures. -/
def processAll (name : String) (method : Method)
    (client : String → Except String MethodResult)
    (outputDir : Option String) (sources : List String) : CollectionResult :=
  let results := sources.map (processSingleSource name method client outputDir)
  let successfulResults := results.filter (fun r => r.success)
  let failedResults := results.filter (fun r => !r.success)
  { collection_name := name
    total_files := sources.length
    successful := successfulResults.length
    failed := failedResults.length
    results := results
    errors := failedResults.map (fun r => { source := r.source, error := r.error }) }

/-! Model of the single-call pipeline `convert` / `ocr` in
`src/datalab_sdk/client.py`: local file preparation (which raises
`DatalabFileError` before any request), one submit `POST`, then
`_poll_result` with its source-site defaults `max_polls=300`,
`poll_interval=1`.  The second component of the result counts the
outbound network requests that were issued. -/

/-- The exception classes of `src/datalab_sdk/exceptions.py` that the
single-call pipeline raises. -/
inductive DatalabError where
  | apiError (msg : String)
  | timeoutError (msg : String)
  | fileError (msg : String)
deriving Repr, DecidableEq

/-- Body of the submit `POST` response, read through
`initial_data.get("success")` and `initial_data.get("error", "Unknown error")`. -/
structure SubmitResponse where
  success : Option Bool
  error : Option String
deriving Repr, DecidableEq

namespace BaseClient

/-- Model of `BaseClient._prepare_file_data` (client.py lines 52-63).  The local
filesystem is the oracle `fs` (contents of existing files); `guessType`
models `mimetypes.guess_type` and `mimeMap` the fallback `MIMETYPE_MAP`
lookup by lowercased extension. -/
def prepareFileData (fs : String → Option String) (guessType mimeMap : String → Option String)
    (filePath : String) : Except String (String × String × String) :=
  match fs filePath with
  | none => Except.error ("File not found: " ++ filePath)
  | some contents =>
      let mime :=
        match guessType filePath with
        | some m => m
        | none => (mimeMap (lowerString (pathSuffix filePath))).getD "application/octet-stream"
      Except.ok (lastComponent filePath, contents, mime)

end BaseClient

namespace AsyncDatalabClient

/-- Model of `AsyncDatalabClient.convert` (client.py lines 181-222) up to the polled
payload: `get_form_params` (file preparation, no network), the submit
`POST` to `/api/v1/marker` whose body is the oracle `submit`, then
`_poll_result(initial_data["request_check_url"])` with its defaults.  The
construction of `ConversionResult` and the optional `save_output` are
field plumbing after the last request and are not modelled.  The `Nat`
component counts requests issued. -/
def convert (fs guessType mimeMap : String → Option String) (submit : SubmitResponse)
    (check : Nat → PollResponse) (filePath : String) :
    Except DatalabError PollResponse × Nat :=
  match BaseClient.prepareFileData fs guessType mimeMap filePath with
  | Except.error msg => (Except.error (DatalabError.fileError msg), 0)
  | Except.ok _ =>
      if submit.success.getD false = false then
        (Except.error (DatalabError.apiError
          ("Request failed: " ++ submit.error.getD "Unknown error")), 1)
      else
        match pollResult check 300 1 with
        | PollOutcome.complete data checks => (Except.ok data, 1 + checks)
        | PollOutcome.apiError msg checks =>
            (Except.error (DatalabError.apiError msg), 1 + checks)
        | PollOutcome.timeoutError msg checks =>
            (Except.error (DatalabError.timeoutError msg), 1 + checks)

/-- Model of `AsyncDatalabClient.ocr` (client.py lines 224-260): same pipeline with
the `/api/v1/ocr` endpoint, whose response is again the oracle `submit`. -/
def ocr (fs guessType mimeMap : String → Option String) (submit : SubmitResponse)
    (check : Nat → PollResponse) (filePath : String) :
    Except DatalabError PollResponse × Nat :=
  match BaseClient.prepareFileData fs guessType mimeMap filePath with
  | Except.error msg => (Except.error (DatalabError.fileError msg), 0)
  | Except.ok _ =>
      if submit.success.getD false = false then
        (Except.error (DatalabError.apiError
          ("Request failed: " ++ submit.error.getD "Unknown error")), 1)
      else
        match pollResult check 300 1 with
        | PollOutcome.complete data checks => (Except.ok data, 1 + checks)
        | PollOutcome.apiError msg checks =>
            (Except.error (DatalabError.apiError msg), 1 + checks)
        | PollOutcome.timeoutError msg checks =>
            (Except.error (DatalabError.timeoutError msg), 1 + checks)

end AsyncDatalabClient

namespace DatalabClient

/-- Model of `DatalabClient.convert` (client.py lines 341-382), textually the same
pipeline as the asynchronous one with synchronous requests. -/
def convert (fs guessType mimeMap : String → Option String) (submit : SubmitResponse)
    (check : Nat → PollResponse) (filePath : String) :
    Except DatalabError PollResponse × Nat :=
  match BaseClient.prepareFileData fs guessType mimeMap filePath with
  | Except.error msg => (Except.error (DatalabError.fileError msg), 0)
  | Except.ok _ =>
      if submit.success.getD false = false then
        (Except.error (DatalabError.apiError
          ("Request failed: " ++ submit.error.getD "Unknown error")), 1)
      else
        match pollResult check 300 1 with
        | PollOutcome.complete data checks => (Except.ok data, 1 + checks)
        | PollOutcome.apiError msg checks =>
            (Except.error (DatalabError.apiError msg), 1 + checks)
        | PollOutcome.timeoutError msg checks =>
            (Except.error (DatalabError.timeoutError msg), 1 + checks)

/-- Model of `DatalabClient.ocr` (client.py lines 384-418). -/
def ocr (fs guessType mimeMap : String → Option String) (submit : SubmitResponse)
    (check : Nat → PollResponse) (filePath : String) :
    Except DatalabError PollResponse × Nat :=
  match BaseClient.prepareFileData fs guessType mimeMap filePath with
  | Except.error msg => (Except.error (DatalabError.fileError msg), 0)
  | Except.ok _ =>
      if submit.success.getD false = false then
        (Except.error (DatalabError.apiError
          ("Request failed: " ++ submit.error.getD "Unknown error")), 1)
      else
        match pollResult check 300 1 with
        | PollOutcome.complete data checks => (Except.ok data, 1 + checks)
        | PollOutcome.apiError msg checks =>
            (Except.error (DatalabError.apiError msg), 1 + checks)
        | PollOutcome.timeoutError msg checks =>
            (Except.error (DatalabError.timeoutError msg), 1 + checks)

end DatalabClient

/-! Completion order.  `Collection._process_all` collects its records with
`results = await asyncio.gather(*tasks)`; `asyncio.gather` returns the
result list in the order of its argument awaitables, independently of the
order in which the tasks finish, so `processAll` does not depend on a
schedule.  To compare with the specified ordering we model a schedule as a
finish time per source and define the completion-ordered failure list. -/

/-- Insertion into a list ordered by finish time. -/
def insertByFinish (finishTime : String → Nat) (r : ItemRecord) :
    List ItemRecord → List ItemRecord
  | [] => [r]
  | s :: rest =>
      if finishTime r.source ≤ finishTime s.source then r :: s :: rest
      else s :: insertByFinish finishTime r rest

/-- Sort records by their finish time. -/
def orderByFinish (finishTime : String → Nat) : List ItemRecord → List ItemRecord
  | [] => []
  | r :: rest => insertByFinish finishTime r (orderByFinish finishTime rest)

/-- Modelled from the spec: "a Batch Summary with exact counts and an
ordered-by-completion list of failure records" — the failure records of a
run, ordered by the time the corresponding task finishes under the given
schedule. -/
def errorsByCompletion (finishTime : String → Nat) (records : List ItemRecord) :
    List ErrorRecord :=
  (orderByFinish finishTime (records.filter (fun r => !r.success))).map
    (fun r => { source := r.source, error := r.error })

/-! Concurrency limiter.  `_process_all` creates
`semaphore = asyncio.Semaphore(max_concurrent)` and wraps each item body in
`async with semaphore:`; the scoped form acquires one slot before the body
runs and releases it on every exit path, normal return or exception.  We
model the batch as a transition system: each task is waiting, running
(holding a slot), or done, and the semaphore counter is explicit state. -/

/-- Phase of one `process_single_source` task. -/
inductive TaskPhase where
  | waiting
  | running
  | done
deriving Repr, DecidableEq

/-- Batch state: free semaphore slots, and the phase of each task. -/
abbrev BatchState := Nat × List TaskPhase

/-- Number of tasks currently inside the `async with semaphore:` block. -/
def runningCount (ts : List TaskPhase) : Nat :=
  ts.countP (fun t => decide (t = TaskPhase.running))

/-- One scheduler step: a waiting task acquires a slot (only possible when a
slot is free), or a running task leaves the `async with` block — by normal
return or by the `except` path — and the scoped exit releases its slot. -/
inductive SemStep : BatchState → BatchState → Prop
  | acquire (slots : Nat) (ts : List TaskPhase) (i : Nat)
      (h : ts.get? i = some TaskPhase.waiting) :
      SemStep (slots + 1, ts) (slots, ts.set i TaskPhase.running)
  | release (slots : Nat) (ts : List TaskPhase) (i : Nat)
      (h : ts.get? i = some TaskPhase.running) :
      SemStep (slots, ts) (slots + 1, ts.set i TaskPhase.done)

/-- Initial state of a batch of `n` sources with `asyncio.Semaphore K`. -/
def batchInit (K n : Nat) : BatchState :=
  (K, List.replicate n TaskPhase.waiting)

/-! Concrete instances used to evaluate the theorems on closed inputs. -/

/-- Poll sequence whose first response is an explicit failure and whose
second response is the first `complete` one. -/
def c3Check : Nat → PollResponse := fun i =>
  if i = 0 then { status := some "failed", success := some false, error := some "x" }
  else { status := some "complete", success := some true, error := none }

/-- The spec test sequence: processing, processing, complete. -/
def c3Seq : Nat → PollResponse := fun i =>
  if i < 2 then { status := some "processing", success := some true, error := none }
  else { status := some "complete", success := some true, error := none }

/-- A poll sequence that reports `processing` forever. -/
def processingForever : Nat → PollResponse := fun _ =>
  { status := some "processing", success := some true, error := none }

/-- A poll sequence that reports an explicit failure at once. -/
def boomCheck : Nat → PollResponse := fun _ =>
  { status := some "failed", success := some false, error := some "boom" }

/-- A batch client whose submit on `a.pdf` raises a file-not-found error and
which succeeds on everything else. -/
def c5Client : String → Except String MethodResult := fun s =>
  if s = "a.pdf" then Except.error "File not found: a.pdf"
  else Except.ok { success := true, error := none, page_count := some 3, status := "complete" }

/-- A batch client that fails on every source with a per-source message. -/
def c7Client : String → Except String MethodResult := fun s =>
  Except.error ("fail " ++ s)

/-- A schedule under which task `b` finishes before task `a`. -/
def c7Finish : String → Nat := fun s => if s = "a" then 2 else 1

/-- A batch client that succeeds on every source. -/
def okClient : String → Except String MethodResult := fun _ =>
  Except.ok { success := true, error := none, page_count := none, status := "complete" }

/-- An empty local filesystem: no path exists. -/
def emptyFs : String → Option String := fun _ => none

/-- A mime oracle that never answers (forcing the fallback map). -/
def noMime : String → Option String := fun _ => none

/-- A submit response accepting the job. -/
def okSubmit : SubmitResponse := { success := some true, error := none }

/-! Helper lemmas about the polling loop. -/

theorem asyncGo_keep (check : Nat → PollResponse) (M T i fuel : Nat)
    (h : keepPolling (check i)) :
    AsyncDatalabClient.pollResultGo check M T i (fuel + 1) =
      AsyncDatalabClient.pollResultGo check M T (i + 1) fuel := by
  obtain ⟨h1, h2⟩ := h
  have h3 : ¬((check i).success.getD true = false ∧ (check i).status ≠ some "processing") := by
    rintro ⟨hf, hp⟩
    rcases h2 with h2 | h2
    · rw [h2] at hf; exact Bool.noConfusion hf
    · exact hp h2
  simp only [AsyncDatalabClient.pollResultGo]
  rw [if_neg h1, if_neg h3]

theorem asyncGo_complete (check : Nat → PollResponse) (M T : Nat) :
    ∀ (k i fuel : Nat), k < fuel →
      (∀ j, j < k → keepPolling (check (i + j))) →
      (check (i + k)).status = some "complete" →
      AsyncDatalabClient.pollResultGo check M T i fuel =
        PollOutcome.complete (check (i + k)) (i + k + 1) := by
  intro k
  induction k with
  | zero =>
      intro i fuel hlt hkeep hc
      obtain ⟨f, rfl⟩ : ∃ f, fuel = f + 1 := ⟨fuel - 1, by omega⟩
      have hc0 : (check i).status = some "complete" := by simpa using hc
      simp only [AsyncDatalabClient.pollResultGo]
      rw [if_pos hc0]
      simp
  | succ k ih =>
      intro i fuel hlt hkeep hc
      obtain ⟨f, rfl⟩ : ∃ f, fuel = f + 1 := ⟨fuel - 1, by omega⟩
      rw [asyncGo_keep check M T i f (by simpa using hkeep 0 (by omega))]
      have harr : i + 1 + k = i + (k + 1) := by omega
      have := ih (i + 1) f (by omega)
        (fun j hj => by
          have h := hkeep (j + 1) (by omega)
          rwa [show i + (j + 1) = i + 1 + j by omega] at h)
        (by rwa [harr])
      rwa [harr] at this

theorem asyncGo_fail (check : Nat → PollResponse) (M T : Nat) :
    ∀ (k i fuel : Nat), k < fuel →
      (∀ j, j < k → keepPolling (check (i + j))) →
      (check (i + k)).status ≠ some "complete" →
      (check (i + k)).success.getD true = false →
      (check (i + k)).status ≠ some "processing" →
      AsyncDatalabClient.pollResultGo check M T i fuel =
        PollOutcome.apiError
          ("Processing failed: " ++ (check (i + k)).error.getD "Unknown error")
          (i + k + 1) := by
  intro k
  induction k with
  | zero =>
      intro i fuel hlt hkeep hnc hs hp
      obtain ⟨f, rfl⟩ : ∃ f, fuel = f + 1 := ⟨fuel - 1, by omega⟩
      have hnc0 : (check i).status ≠ some "complete" := by simpa using hnc
      have hs0 : (check i).success.getD true = false := by simpa using hs
      have hp0 : (check i).status ≠ some "processing" := by simpa using hp
      simp only [AsyncDatalabClient.pollResultGo]
      rw [if_neg hnc0, if_pos ⟨hs0, hp0⟩]
      simp
  | succ k ih =>
      intro i fuel hlt hkeep hnc hs hp
      obtain ⟨f, rfl⟩ : ∃ f, fuel = f + 1 := ⟨fuel - 1, by omega⟩
      rw [asyncGo_keep check M T i f (by simpa using hkeep 0 (by omega))]
      have harr : i + 1 + k = i + (k + 1) := by omega
      have := ih (i + 1) f (by omega)
        (fun j hj => by
          have h := hkeep (j + 1) (by omega)
          rwa [show i + (j + 1) = i + 1 + j by omega] at h)
        (by rwa [harr]) (by rwa [harr]) (by rwa [harr])
      rwa [harr] at this

theorem asyncGo_timeout (check : Nat → PollResponse) (M T : Nat) :
    ∀ (fuel i : Nat), (∀ j, j < fuel → keepPolling (check (i + j))) →
      AsyncDatalabClient.pollResultGo check M T i fuel =
        PollOutcome.timeoutError
          ("Polling timed out after " ++ toString (M * T) ++ " seconds") (i + fuel) := by
  intro fuel
  induction fuel with
  | zero => intro i _; rfl
  | succ f ih =>
      intro i hkeep
      rw [asyncGo_keep check M T i f (by simpa using hkeep 0 (by omega))]
      have := ih (i + 1)
        (fun j hj => by
          have h := hkeep (j + 1) (by omega)
          rwa [show i + (j + 1) = i + 1 + j by omega] at h)
      rwa [show i + 1 + f = i + (f + 1) by omega] at this

/-- The synchronous loop body is the same function as the asynchronous one
(the only difference in the source is `time.sleep` versus `asyncio.sleep`). -/
theorem syncGo_eq_asyncGo (check : Nat → PollResponse) (M T : Nat) :
    ∀ (fuel i : Nat),
      DatalabClient.pollResultGo check M T i fuel =
        AsyncDatalabClient.pollResultGo check M T i fuel := by
  intro fuel
  induction fuel with
  | zero => intro i; rfl
  | succ f ih =>
      intro i
      simp only [DatalabClient.pollResultGo, AsyncDatalabClient.pollResultGo, ih]

theorem syncPollResult_eq (check : Nat → PollResponse) (M T : Nat) :
    DatalabClient.pollResult check M T = AsyncDatalabClient.pollResult check M T :=
  syncGo_eq_asyncGo check M T M 0

/-! Helper lemmas about the batch aggregation. -/

theorem processSingleSource_source (name : String) (method : Method)
    (client : String → Except String MethodResult) (outputDir : Option String)
    (source : String) :
    (processSingleSource name method client outputDir source).source = source := by
  by_cases hq : method = Method.ocr ∧ isRemoteSource source = true
  · simp [processSingleSource, hq]
  · rcases hcl : client source with e | r
    · simp [processSingleSource, hq, hcl]
    · simp [processSingleSource, hq, hcl]

theorem processSingleSource_clientError (name : String) (method : Method)
    (client : String → Except String MethodResult) (outputDir : Option String)
    (source : String) (e : String)
    (hnot : ¬(method = Method.ocr ∧ isRemoteSource source))
    (hc : client source = Except.error e) :
    processSingleSource name method client outputDir source =
      { source := source, output_path := none, success := false,
        error := some e, page_count := none, status := "failed" } := by
  unfold processSingleSource
  rw [if_neg hnot, hc]

theorem processSingleSource_clientOk_success (name : String) (method : Method)
    (client : String → Except String MethodResult) (outputDir : Option String)
    (source : String) (r : MethodResult)
    (hnot : ¬(method = Method.ocr ∧ isRemoteSource source))
    (hc : client source = Except.ok r) :
    (processSingleSource name method client outputDir source).success = r.success := by
  unfold processSingleSource
  rw [if_neg hnot, hc]

theorem length_filter_bool {α : Type} (p : α → Bool) (l : List α) :
    (l.filter p).length + (l.filter (fun a => !(p a))).length = l.length := by
  induction l with
  | nil => rfl
  | cons a t ih =>
      cases h : p a <;> simp [List.filter_cons, h] <;> omega

theorem filter_map_comm {α β : Type} (f : α → β) (p : β → Bool) (l : List α) :
    (l.map f).filter p = (l.filter (fun a => p (f a))).map f := by
  induction l with
  | nil => rfl
  | cons a t ih =>
      cases h : p (f a) <;> simp [List.filter_cons, h, ih]

/-! Helper lemmas about the semaphore transition system. -/

theorem countP_set_of_get {p : TaskPhase → Bool} :
    ∀ (ts : List TaskPhase) (i : Nat) (a b : TaskPhase), ts.get? i = some a →
      (ts.set i b).countP p + (if p a then 1 else 0) =
        ts.countP p + (if p b then 1 else 0) := by
  intro ts
  induction ts with
  | nil => intro i a b h; simp at h
  | cons c rest ih =>
      intro i a b h
      cases i with
      | zero =>
          simp only [List.get?] at h
          obtain rfl : c = a := by injection h
          simp [List.set, List.countP_cons]
          omega
      | succ i =>
          simp only [List.get?] at h
          have := ih i a b h
          simp [List.set, List.countP_cons]
          omega

theorem runningCount_replicate_waiting (n : Nat) :
    runningCount (List.replicate n TaskPhase.waiting) = 0 := by
  induction n with
  | zero => rfl
  | succ n ih =>
      simp only [List.replicate, runningCount, List.countP_cons] at ih ⊢
      simp [ih]

theorem semStep_inv (K : Nat) (s t : BatchState) (hst : SemStep s t)
    (h : s.1 + runningCount s.2 = K) : t.1 + runningCount t.2 = K := by
  cases hst with
  | acquire slots ts i hi =>
      have := countP_set_of_get (p := fun t => decide (t = TaskPhase.running))
        ts i TaskPhase.waiting TaskPhase.running hi
      simp only [runningCount] at h ⊢
      simp at this
      omega
  | release slots ts i hi =>
      have := countP_set_of_get (p := fun t => decide (t = TaskPhase.running))
        ts i TaskPhase.running TaskPhase.done hi
      simp only [runningCount] at h ⊢
      simp at this
      omega

/-! Claim theorems. -/

/-- C1: for every list of sources, `Collection._process_all` (the engine of
`convert_all` and `ocr_all`, for any `max_concurrent`) returns a
`CollectionResult` with `successful + failed = total_files`,
`total_files = sources.length`, and whose `results` carry exactly the
submitted sources, in order — no source duplicated, none dropped. -/
theorem processAll_accounting (name : String) (method : Method)
    (client : String → Except String MethodResult) (outputDir : Option String)
    (sources : List String) :
    (processAll name method client outputDir sources).successful
        + (processAll name method client outputDir sources).failed
      = (processAll name method client outputDir sources).total_files
    ∧ (processAll name method client outputDir sources).total_files = sources.length
    ∧ (processAll name method client outputDir sources).results.map ItemRecord.source
        = sources := by
  refine ⟨?_, rfl, ?_⟩
  · have h := length_filter_bool (fun r : ItemRecord => r.success)
      (sources.map (processSingleSource name method client outputDir))
    simp only [processAll]
    simpa using h
  · simp only [processAll]
    rw [List.map_map,
      show ItemRecord.source ∘ processSingleSource name method client outputDir = id from
        funext (fun s => processSingleSource_source name method client outputDir s),
      List.map_id]

/-- C2: when the first terminal response among the checks is an explicit
failure (`status: failed` with `success: false`), `_poll_result` — both the
asynchronous and the synchronous one — raises `DatalabAPIError` carrying the
service-provided error message right after that check, having made exactly
`k + 1` status requests. -/
theorem pollResult_explicit_failure (check : Nat → PollResponse)
    (maxPolls pollInterval k : Nat) (hk : k < maxPolls)
    (hbefore : ∀ j, j < k → keepPolling (check j))
    (hstatus : (check k).status = some "failed")
    (hsuccess : (check k).success = some false) :
    AsyncDatalabClient.pollResult check maxPolls pollInterval =
        PollOutcome.apiError
          ("Processing failed: " ++ (check k).error.getD "Unknown error") (k + 1)
    ∧ DatalabClient.pollResult check maxPolls pollInterval =
        PollOutcome.apiError
          ("Processing failed: " ++ (check k).error.getD "Unknown error") (k + 1) := by
  have hnc : (check k).status ≠ some "complete" := by rw [hstatus]; simp
  have hp : (check k).status ≠ some "processing" := by rw [hstatus]; simp
  have hs : (check k).success.getD true = false := by rw [hsuccess]; rfl
  have h := asyncGo_fail check maxPolls pollInterval k 0 maxPolls hk
    (fun j hj => by simpa using hbefore j hj) (by simpa using hnc)
    (by simpa using hs) (by simpa using hp)
  constructor
  · simpa [AsyncDatalabClient.pollResult] using h
  · rw [syncPollResult_eq]
    simpa [AsyncDatalabClient.pollResult] using h

/-- C2 witness: the single check `status: failed, success: false, error: boom`
raises an API error containing `boom` after exactly one check. -/
theorem pollResult_explicit_failure_witness :
    AsyncDatalabClient.pollResult boomCheck 1 0
        = PollOutcome.apiError "Processing failed: boom" 1
    ∧ DatalabClient.pollResult boomCheck 1 0
        = PollOutcome.apiError "Processing failed: boom" 1 := by
  have h := pollResult_explicit_failure boomCheck 1 0 0 (by omega)
    (fun j hj => absurd hj (by omega)) rfl rfl
  simpa [boomCheck] using h

/-- C3 counterexample: the claim quantifies over every response sequence whose
k-th response is the first `complete` one, but an earlier explicit-failure
response stops the loop before `complete` is ever seen: on `c3Check`
(failed, then complete) with `max_polls = 2`, the first `complete` response
is the 2nd, yet `_poll_result` raises an API error after 1 check instead of
returning the complete payload after 2 checks. -/
theorem pollResult_first_complete_counterexample :
    (c3Check 1).status = some "complete"
    ∧ (c3Check 0).status ≠ some "complete"
    ∧ AsyncDatalabClient.pollResult c3Check 2 0
        = PollOutcome.apiError "Processing failed: x" 1
    ∧ AsyncDatalabClient.pollResult c3Check 2 0
        ≠ PollOutcome.complete (c3Check 1) 2 := by
  refine ⟨rfl, by decide, by decide, by decide⟩

/-- C3 amended: for every sequence of poll responses whose first `k`
responses are non-terminal (keep-polling) and whose `(k+1)`-st response is
the first with status `complete` (`k + 1 ≤ max_polls`), `_poll_result`
returns that full response payload after making exactly `k + 1` status
requests. -/
theorem pollResult_returns_first_complete (check : Nat → PollResponse)
    (maxPolls pollInterval k : Nat) (hk : k < maxPolls)
    (hbefore : ∀ j, j < k → keepPolling (check j))
    (hc : (check k).status = some "complete") :
    AsyncDatalabClient.pollResult check maxPolls pollInterval
      = PollOutcome.complete (check k) (k + 1) := by
  have h := asyncGo_complete check maxPolls pollInterval k 0 maxPolls hk
    (fun j hj => by simpa using hbefore j hj) (by simpa using hc)
  simpa [AsyncDatalabClient.pollResult] using h

/-- C3 witness: the sequence processing, processing, complete with
`poll_interval = 0` terminates after exactly 3 checks and returns the
complete payload. -/
theorem pollResult_returns_first_complete_witness :
    AsyncDatalabClient.pollResult c3Seq 300 0
      = PollOutcome.complete
          { status := some "complete", success := some true, error := none } 3 := by
  have h := pollResult_returns_first_complete c3Seq 300 0 2 (by omega)
    (fun j hj => by
      have : j = 0 ∨ j = 1 := by omega
      rcases this with rfl | rfl <;> decide)
    (by decide)
  simpa [c3Seq] using h

/-- C4: if none of the first `M` responses is terminal, `_poll_result` —
asynchronous and synchronous alike — raises `DatalabTimeoutError` after
exactly `M` status requests, with a message reporting the elapsed budget
`M * T` seconds. -/
theorem pollResult_timeout (check : Nat → PollResponse) (M T : Nat) (_hM : 1 ≤ M)
    (h : ∀ j, j < M → keepPolling (check j)) :
    AsyncDatalabClient.pollResult check M T
        = PollOutcome.timeoutError
            ("Polling timed out after " ++ toString (M * T) ++ " seconds") M
    ∧ DatalabClient.pollResult check M T
        = PollOutcome.timeoutError
            ("Polling timed out after " ++ toString (M * T) ++ " seconds") M := by
  have hgo := asyncGo_timeout check M T M 0 (fun j hj => by simpa using h j hj)
  constructor
  · simpa [AsyncDatalabClient.pollResult] using hgo
  · rw [syncPollResult_eq]
    simpa [AsyncDatalabClient.pollResult] using hgo

/-- C4 witness: all-processing responses with `max_polls = 3` and
`poll_interval = 2` time out after 3 checks, reporting 6 seconds. -/
theorem pollResult_timeout_witness :
    AsyncDatalabClient.pollResult processingForever 3 2
        = PollOutcome.timeoutError "Polling timed out after 6 seconds" 3
    ∧ DatalabClient.pollResult processingForever 3 2
        = PollOutcome.timeoutError "Polling timed out after 6 seconds" 3 := by
  have h := pollResult_timeout processingForever 3 2 (by omega)
    (fun j hj => by
      show keepPolling { status := some "processing", success := some true, error := none }
      decide)
  simpa using h

/-- C10: on every sequence of poll responses and identical `max_polls` and
`poll_interval`, the synchronous `DatalabClient._poll_result` and the
asynchronous `AsyncDatalabClient._poll_result` decide identically — same
payload or same exception class and message, after the same number of
status checks. -/
theorem pollResult_sync_async_equivalent (check : Nat → PollResponse)
    (maxPolls pollInterval : Nat) :
    DatalabClient.pollResult check maxPolls pollInterval
      = AsyncDatalabClient.pollResult check maxPolls pollInterval :=
  syncPollResult_eq check maxPolls pollInterval

/-- C5: an exception raised while processing one source is caught at that
item's boundary and becomes a failed record whose `error` is the exception
message (`processSingleSource` is a total function, so nothing propagates
out of `_process_all`); in a batch of two sources where A's submit raises
and B succeeds, the summary is `successful = 1, failed = 1` and B's record
is exactly the record B gets in a batch of its own. -/
theorem processAll_item_isolation (name : String) (method : Method)
    (client : String → Except String MethodResult) (outputDir : Option String)
    (a b ea : String) (rb : MethodResult)
    (haNot : ¬(method = Method.ocr ∧ isRemoteSource a))
    (hbNot : ¬(method = Method.ocr ∧ isRemoteSource b))
    (hA : client a = Except.error ea)
    (hB : client b = Except.ok rb)
    (hrb : rb.success = true) :
    (processAll name method client outputDir [a, b]).successful = 1
    ∧ (processAll name method client outputDir [a, b]).failed = 1
    ∧ (processAll name method client outputDir [a, b]).results
        = [{ source := a, output_path := none, success := false, error := some ea,
             page_count := none, status := "failed" },
           processSingleSource name method client outputDir b]
    ∧ (processAll name method client outputDir [b]).results
        = [processSingleSource name method client outputDir b] := by
  have hA' := processSingleSource_clientError name method client outputDir a ea haNot hA
  have hB' := processSingleSource_clientOk_success name method client outputDir b rb hbNot hB
  rw [hrb] at hB'
  refine ⟨?_, ?_, ?_, rfl⟩
  · simp [processAll, List.filter_cons, hA', hB']
  · simp [processAll, List.filter_cons, hA', hB']
  · simp [processAll, hA']

/-- C5 witness: with `c5Client`, source `a.pdf` fails on submit with a
file-not-found message and `b.pdf` succeeds; the batch reports one success
and one failure, and `b.pdf` keeps the record of a singleton batch. -/
theorem processAll_item_isolation_witness :
    (processAll "col" Method.convert c5Client none ["a.pdf", "b.pdf"]).successful = 1
    ∧ (processAll "col" Method.convert c5Client none ["a.pdf", "b.pdf"]).failed = 1
    ∧ (processAll "col" Method.convert c5Client none ["a.pdf", "b.pdf"]).results
        = [{ source := "a.pdf", output_path := none, success := false,
             error := some "File not found: a.pdf", page_count := none,
             status := "failed" },
           processSingleSource "col" Method.convert c5Client none "b.pdf"]
    ∧ (processAll "col" Method.convert c5Client none ["b.pdf"]).results
        = [processSingleSource "col" Method.convert c5Client none "b.pdf"] := by
  exact processAll_item_isolation "col" Method.convert c5Client none
    "a.pdf" "b.pdf" "File not found: a.pdf"
    { success := true, error := none, page_count := some 3, status := "complete" }
    (by decide) (by decide) rfl rfl rfl

/-- C6: for a local path absent from the filesystem, `convert` and `ocr` —
on both `AsyncDatalabClient` and `DatalabClient` — raise `DatalabFileError`
with the file-not-found message and issue zero network requests. -/
theorem convert_ocr_missing_file_no_network (fs guessType mimeMap : String → Option String)
    (submit : SubmitResponse) (check : Nat → PollResponse) (filePath : String)
    (h : fs filePath = none) :
    AsyncDatalabClient.convert fs guessType mimeMap submit check filePath
        = (Except.error (DatalabError.fileError ("File not found: " ++ filePath)), 0)
    ∧ AsyncDatalabClient.ocr fs guessType mimeMap submit check filePath
        = (Except.error (DatalabError.fileError ("File not found: " ++ filePath)), 0)
    ∧ DatalabClient.convert fs guessType mimeMap submit check filePath
        = (Except.error (DatalabError.fileError ("File not found: " ++ filePath)), 0)
    ∧ DatalabClient.ocr fs guessType mimeMap submit check filePath
        = (Except.error (DatalabError.fileError ("File not found: " ++ filePath)), 0) := by
  refine ⟨?_, ?_, ?_, ?_⟩ <;>
    simp [AsyncDatalabClient.convert, AsyncDatalabClient.ocr,
      DatalabClient.convert, DatalabClient.ocr, BaseClient.prepareFileData, h]

/-- C6 witness: on an empty filesystem, converting or OCRing `missing.pdf`
fails with the file error and zero requests, for all four entry points. -/
theorem convert_ocr_missing_file_no_network_witness :
    AsyncDatalabClient.convert emptyFs noMime noMime okSubmit processingForever "missing.pdf"
        = (Except.error (DatalabError.fileError "File not found: missing.pdf"), 0)
    ∧ AsyncDatalabClient.ocr emptyFs noMime noMime okSubmit processingForever "missing.pdf"
        = (Except.error (DatalabError.fileError "File not found: missing.pdf"), 0)
    ∧ DatalabClient.convert emptyFs noMime noMime okSubmit processingForever "missing.pdf"
        = (Except.error (DatalabError.fileError "File not found: missing.pdf"), 0)
    ∧ DatalabClient.ocr emptyFs noMime noMime okSubmit processingForever "missing.pdf"
        = (Except.error (DatalabError.fileError "File not found: missing.pdf"), 0) := by
  have h := convert_ocr_missing_file_no_network emptyFs noMime noMime okSubmit
    processingForever "missing.pdf" rfl
  simpa using h

/-- C7 counterexample: in `_process_all`, `asyncio.gather` collects records
in submission order, so the `errors` list is not ordered by completion:
with two failing sources where `b` finishes before `a`, the code yields the
failures as `[a, b]` while the completion order is `[b, a]`. -/
theorem processAll_errors_completion_order_counterexample :
    (processAll "col" Method.convert c7Client none ["a", "b"]).errors
      ≠ errorsByCompletion c7Finish
          (processAll "col" Method.convert c7Client none ["a", "b"]).results := by
  decide

/-- C7 amended: the `errors` list of the Batch Summary contains the failure
records in submission order — the order sources appear in the collection —
restricted to the failed items. -/
theorem processAll_errors_submission_order (name : String) (method : Method)
    (client : String → Except String MethodResult) (outputDir : Option String)
    (sources : List String) :
    (processAll name method client outputDir sources).errors
      = (sources.filter
            (fun s => !(processSingleSource name method client outputDir s).success)).map
          (fun s => { source := s,
                      error := (processSingleSource name method client outputDir s).error }) := by
  simp only [processAll]
  rw [filter_map_comm, List.map_map]
  exact List.map_congr_left (fun s hs => by
    simp [Function.comp, processSingleSource_source])

/-- C8: `from_local_directory` with an extension filter keeps exactly the
files (recursively listed) whose lowercased suffix is in the normalized
filter, and when nothing matches, batch processing of the resulting empty
work set is a valid empty summary, not a failure. -/
theorem fromLocalDirectory_filter_and_empty (name : String) (files extensions : List String)
    (method : Method) (client : String → Except String MethodResult)
    (outputDir : Option String) :
    (∀ f, f ∈ (fromLocalDirectory name files extensions).sources ↔
        f ∈ files ∧ lowerString (pathSuffix f) ∈ normalizeExtensions extensions)
    ∧ ((∀ f, f ∈ files → lowerString (pathSuffix f) ∉ normalizeExtensions extensions) →
        processAll name method client outputDir
            (fromLocalDirectory name files extensions).sources
          = { collection_name := name, total_files := 0, successful := 0,
              failed := 0, results := [], errors := [] }) := by
  constructor
  · intro f
    simp [fromLocalDirectory, List.mem_filter]
  · intro hnone
    have hempty : (fromLocalDirectory name files extensions).sources = [] := by
      simp only [fromLocalDirectory]
      rw [List.filter_eq_nil_iff]
      intro a ha
      simpa using hnone a ha
    rw [hempty]
    rfl

/-- C8 witness: over files `{.pdf, .docx, .jpg}` the filter `[".pdf"]` keeps
`docs/a.pdf`, and with the filter `[".png"]` nothing matches and the batch
summary is empty with zero counts. -/
theorem fromLocalDirectory_filter_and_empty_witness :
    ("docs/a.pdf" ∈ (fromLocalDirectory "col" ["docs/a.pdf", "docs/sub/b.docx", "c.jpg"]
          [".pdf"]).sources
      ↔ ("docs/a.pdf" ∈ ["docs/a.pdf", "docs/sub/b.docx", "c.jpg"]
          ∧ lowerString (pathSuffix "docs/a.pdf") ∈ normalizeExtensions [".pdf"]))
    ∧ processAll "col" Method.convert okClient none
          (fromLocalDirectory "col" ["docs/a.pdf", "docs/sub/b.docx", "c.jpg"]
            [".png"]).sources
        = { collection_name := "col", total_files := 0, successful := 0,
            failed := 0, results := [], errors := [] } := by
  constructor
  · exact (fromLocalDirectory_filter_and_empty "col"
      ["docs/a.pdf", "docs/sub/b.docx", "c.jpg"] [".pdf"]
      Method.convert okClient none).1 "docs/a.pdf"
  · exact (fromLocalDirectory_filter_and_empty "col"
      ["docs/a.pdf", "docs/sub/b.docx", "c.jpg"] [".png"]
      Method.convert okClient none).2 (by decide)

/-- C9: for `max_concurrent = K`, in every state reachable from the start of
a batch of `n` tasks, at most `K` tasks are inside the `async with
semaphore:` block (`slots + running = K` is invariant, with release on
every exit path), and whenever no task is running all `K` slots are free —
no slot leaks. -/
theorem semaphore_bounds_concurrency (K n : Nat) (_hK : 1 ≤ K) (s : BatchState)
    (hreach : Relation.ReflTransGen SemStep (batchInit K n) s) :
    runningCount s.2 ≤ K ∧ s.1 + runningCount s.2 = K
    ∧ (runningCount s.2 = 0 → s.1 = K) := by
  have hinv : s.1 + runningCount s.2 = K := by
    induction hreach with
    | refl => simp [batchInit, runningCount_replicate_waiting]
    | tail _ hstep ih => exact semStep_inv K _ _ hstep ih
  exact ⟨by omega, hinv, by omega⟩

/-- C9 witness: a full run of two tasks under `K = 1` (acquire, release,
acquire, release) stays within the bound and ends with the slot returned. -/
theorem semaphore_bounds_concurrency_witness :
    runningCount [TaskPhase.done, TaskPhase.done] ≤ 1
    ∧ 1 + runningCount [TaskPhase.done, TaskPhase.done] = 1
    ∧ (runningCount [TaskPhase.done, TaskPhase.done] = 0 → 1 = 1) := by
  have t0 : Relation.ReflTransGen SemStep (batchInit 1 2) (batchInit 1 2) :=
    Relation.ReflTransGen.refl
  have t1 := t0.tail
    (show SemStep (batchInit 1 2) (0, [TaskPhase.running, TaskPhase.waiting]) from
      SemStep.acquire 0 [TaskPhase.waiting, TaskPhase.waiting] 0 rfl)
  have t2 := t1.tail
    (show SemStep (0, [TaskPhase.running, TaskPhase.waiting])
        (1, [TaskPhase.done, TaskPhase.waiting]) from
      SemStep.release 0 [TaskPhase.running, TaskPhase.waiting] 0 rfl)
  have t3 := t2.tail
    (show SemStep (1, [TaskPhase.done, TaskPhase.waiting])
        (0, [TaskPhase.done, TaskPhase.running]) from
      SemStep.acquire 0 [TaskPhase.done, TaskPhase.waiting] 1 rfl)
  have t4 := t3.tail
    (show SemStep (0, [TaskPhase.done, TaskPhase.running])
        (1, [TaskPhase.done, TaskPhase.done]) from
      SemStep.release 0 [TaskPhase.done, TaskPhase.running] 1 rfl)
  exact semaphore_bounds_concurrency 1 2 (by omega)
    (1, [TaskPhase.done, TaskPhase.done]) t4

end DatalabSDK
